import Mathlib

/-!  Verification of the take-home-assignment generation pipeline.

This file gives a shallow embedding of the core of the repository:
the pydantic data model (`backend/api/schemas.py`), the quality-gate
validators (`backend/core/quality_gates.py`) and the 4-phase generation
pipeline (`backend/core/generator.py`), together with theorems settling
the specification claims about them.

Modelling conventions:
* Python `float` values (time budgets, rubric weights) are embedded as `ℚ`;
  `int` minute counts as `ℤ`; strings as `String`.
* The issue/warning message strings built by the validators are abstracted
  into the inductive types `Issue` and `Warning`, one constructor per
  distinct `append` site in the source, in source order; the textual
  content of the messages is not load-bearing for any claim.
* The content-generation capability (`GeminiClient.generate_json`) is
  external; a pipeline run is modelled as a function of the four structured
  payloads the capability would return, with `none` standing for a
  capability failure or a parse failure of that phase's response.
* Python exception raising is embedded as `Except GenError`; the exception
  class hierarchy of `generator.py` becomes the inductive `GenError`
  (`ScopeValidationError` carries its issue list, as its message does).
* `uuid.uuid4()` and `datetime.now()` in `_assemble_assignment` are
  nondeterministic; they are passed to the embedding as explicit arguments
  `assignment_id` and `generated_at`.
-/

/-- Substring test on `String`, modelling Python's `term in context`. -/
def strContains (s t : String) : Bool :=
  decide (List.IsInfix t.data s.data)

/-- Whitespace stripping from both ends of a string, modelling Python's
`str.strip()`. -/
def pyStrip (s : String) : String :=
  ⟨((s.data.dropWhile Char.isWhitespace).reverse.dropWhile Char.isWhitespace).reverse⟩

/-- Requirement model of `schemas.py` (`description`, `estimated_time_minutes`,
`why_it_matters`); the pydantic bound `estimated_time_minutes > 0` is enforced
at parse time in the scope-definition phase, not by the type. -/
structure Requirement where
  description : String
  estimated_time_minutes : ℤ
  why_it_matters : String
deriving DecidableEq, Repr

/-- AssignmentScope model of `schemas.py`. -/
structure AssignmentScope where
  title : String
  business_context : String
  must_have : List Requirement
  nice_to_have : List Requirement
  constraints : List String
deriving DecidableEq, Repr

/-- Property `AssignmentScope.all_requirements`: must-have plus nice-to-have. -/
def AssignmentScope.all_requirements (s : AssignmentScope) : List Requirement :=
  s.must_have ++ s.nice_to_have

/-- Sum of `estimated_time_minutes` over a requirement list
(`sum(req.estimated_time_minutes for req in ...)`). -/
def requirementMinutes (reqs : List Requirement) : ℤ :=
  (reqs.map (fun r => r.estimated_time_minutes)).sum

/-- JobContext model of `schemas.py`. -/
structure JobContext where
  responsibilities : List String
  business_domain : String
  daily_technologies : List String
  collaboration_patterns : Option String
deriving DecidableEq, Repr

/-- RubricItem model of `schemas.py`; the pydantic bounds `0 ≤ weight ≤ 1`
are enforced at parse time in the rubric phase, not by the type. -/
structure RubricItem where
  area : String
  weight : ℚ
  junior_expectation : String
  mid_expectation : String
  senior_expectation : String
  scoring_guide : String
deriving DecidableEq, Repr

/-- Sum of the weights of a rubric list
(`sum(item.weight for item in rubric)`). -/
def weightSum (rubric : List RubricItem) : ℚ :=
  (rubric.map (fun i => i.weight)).sum

/-- EvaluatorGuide model of `schemas.py`; its pydantic validators
(`3 ≤ len(scoring_rubric) ≤ 7`, weights sum to `1.0 ± 0.01`) are enforced at
parse time in the rubric phase. -/
structure EvaluatorGuide where
  scoring_rubric : List RubricItem
  common_pitfalls : List String
  red_flags : List String
  green_flags : List String
  calibration_notes : String
deriving DecidableEq, Repr

/-- TimeBreakdown model of `schemas.py`.  A value of this type stands both
for the raw payload handed to `TimeBreakdown(**response)` (where
`breakdown_valid` is the capability-supplied flag) and for the validated
model (where `breakdown_valid` is whatever the `validate_breakdown_sum`
field validator returned); `timeBreakdownModelValidate` maps the former to
the latter. -/
structure TimeBreakdown where
  total_minutes : ℤ
  setup_minutes : ℤ
  core_implementation_minutes : ℤ
  testing_minutes : ℤ
  documentation_minutes : ℤ
  buffer_minutes : ℤ
  breakdown_valid : Bool
deriving DecidableEq, Repr

/-- Field validator `TimeBreakdown.validate_breakdown_sum` of `schemas.py`:
given the previously validated minute fields it returns
`abs(total - expected_total) < 5` ("Allow 5 minute tolerance"). -/
def validate_breakdown_sum (total setup core testing documentation buffer : ℤ) : Bool :=
  decide (|total - (setup + core + testing + documentation + buffer)| < 5)

/-- Pydantic validation of a `TimeBreakdown` payload: the per-field bounds
(`total_minutes > 0`, `core_implementation_minutes > 0`, the rest `≥ 0`)
must hold, and the `breakdown_valid` field is replaced by the value the
`validate_breakdown_sum` field validator returns, which ignores the supplied
boolean whenever the earlier fields validated. -/
def timeBreakdownModelValidate (raw : TimeBreakdown) : Option TimeBreakdown :=
  if 0 < raw.total_minutes ∧ 0 ≤ raw.setup_minutes ∧
      0 < raw.core_implementation_minutes ∧ 0 ≤ raw.testing_minutes ∧
      0 ≤ raw.documentation_minutes ∧ 0 ≤ raw.buffer_minutes then
    some { raw with
      breakdown_valid := validate_breakdown_sum raw.total_minutes raw.setup_minutes
        raw.core_implementation_minutes raw.testing_minutes
        raw.documentation_minutes raw.buffer_minutes }
  else
    none

/-- AssignmentInput model of `schemas.py`; the API-level pydantic bounds
(budget in `[2.0, 8.0]`, seniority a literal of four values, ...) are not
needed by the pipeline functions and are left to the transport layer. -/
structure AssignmentInput where
  job_title : String
  job_description : String
  tech_stack : List String
  time_budget_hours : ℚ
  seniority_level : String
  company_context : Option String
  current_challenges : Option String
  must_evaluate : List String
  avoid_topics : List String
  candidate_can_use : Option (List String)
  submission_format : String
deriving DecidableEq, Repr

/-- Blocking issues appended by the three quality-gate validators, one
constructor per `issues.append(...)` site of `quality_gates.py`. -/
inductive Issue where
  | insufficientResponsibilities
  | noBusinessDomain
  | noDailyTechnologies
  | timeMismatch
  | contextTooBrief
  | tooFewMustHave
  | tooFewRubricItems
  | weightSumOff
  | invalidWeight (area : String)
  | emptyScoringGuide (area : String)
deriving DecidableEq, Repr

/-- Non-blocking warnings appended by the quality gate, one constructor per
`warnings.append(...)` site of `quality_gates.py`. -/
inductive Warning where
  | noCollaborationPatterns
  | contextTooLong
  | manyMustHave
  | fewConstraints
  | genericContext (term : String)
  | manyRubricItems
  | smallWeight (area : String)
  | emptyJuniorExpectation (area : String)
  | emptyMidExpectation (area : String)
  | emptySeniorExpectation (area : String)
  | seniorityMismatch
  | manyMustHaveTimeBudget
  | noNiceToHave
  | lowMustHaveShare
deriving DecidableEq, Repr

/-- ValidationResult model of `schemas.py`, with the message strings
abstracted into `Issue` and `Warning`. -/
structure ValidationResult where
  passed : Bool
  issues : List Issue
  warnings : List Warning
deriving DecidableEq, Repr

/-- ScopeValidation model of `schemas.py` (same shape as
`ValidationResult`). -/
structure ScopeValidation where
  passed : Bool
  issues : List Issue
  warnings : List Warning
deriving DecidableEq, Repr

namespace QualityGate

/-- Method `QualityGate.validate_context_extraction` of `quality_gates.py`. -/
def validate_context_extraction (context : JobContext) : ValidationResult :=
  let issues :=
    (if context.responsibilities.length < 3 then [Issue.insufficientResponsibilities] else [])
    ++ (if (pyStrip context.business_domain).length = 0 then [Issue.noBusinessDomain] else [])
    ++ (if context.daily_technologies.length = 0 then [Issue.noDailyTechnologies] else [])
  let warnings :=
    (if (match context.collaboration_patterns with
         | none => true
         | some s => s = "") then [Warning.noCollaborationPatterns] else [])
  { passed := issues.length == 0, issues := issues, warnings := warnings }

/-- List `generic_terms` of `QualityGate.validate_scope`. -/
def generic_terms : List String :=
  ["bookstore", "todo", "to-do", "blog", "e-commerce store"]

/-- Method `QualityGate.validate_scope` of `quality_gates.py`.  The ratio
`total_time / expected_minutes` is computed in `ℚ`; the generic-term scan
stops at the first matching term (`break` in the source). -/
def validate_scope (scope : AssignmentScope) (time_budget_hours : ℚ) : ValidationResult :=
  let total_time : ℤ := requirementMinutes scope.all_requirements
  let expected_minutes : ℚ := time_budget_hours * 60
  let time_ratio : ℚ := (total_time : ℚ) / expected_minutes
  let issues :=
    (if ¬ ((3 : ℚ)/4 ≤ time_ratio ∧ time_ratio ≤ (5 : ℚ)/4) then [Issue.timeMismatch] else [])
    ++ (if scope.business_context.length < 100 then [Issue.contextTooBrief] else [])
    ++ (if scope.must_have.length < 3 then [Issue.tooFewMustHave] else [])
  let warnings :=
    (if 2000 < scope.business_context.length then [Warning.contextTooLong] else [])
    ++ (if 7 < scope.must_have.length then [Warning.manyMustHave] else [])
    ++ (if scope.constraints.length < 2 then [Warning.fewConstraints] else [])
    ++ (match generic_terms.find? (fun t => strContains scope.business_context.toLower t) with
        | some t => [Warning.genericContext t]
        | none => [])
  { passed := issues.length == 0, issues := issues, warnings := warnings }

/-- Method `QualityGate.validate_rubric` of `quality_gates.py`.  The two
per-item issue loops and the per-item warning loops of the source are
rendered as `filter`/`map` and a per-item `join`, preserving the order in
which the source appends to each list. -/
def validate_rubric (rubric : List RubricItem) : ValidationResult :=
  let issues :=
    (if rubric.length < 3 then [Issue.tooFewRubricItems] else [])
    ++ (if (1 : ℚ)/100 < |weightSum rubric - 1| then [Issue.weightSumOff] else [])
    ++ (rubric.filter (fun i => decide (i.weight ≤ 0))).map (fun i => Issue.invalidWeight i.area)
    ++ (rubric.filter (fun i => pyStrip i.scoring_guide = "")).map
        (fun i => Issue.emptyScoringGuide i.area)
  let warnings :=
    (if 7 < rubric.length then [Warning.manyRubricItems] else [])
    ++ (rubric.filter (fun i => decide (0 < i.weight ∧ i.weight < (5 : ℚ)/100))).map
        (fun i => Warning.smallWeight i.area)
    ++ (rubric.map (fun i =>
        (if pyStrip i.junior_expectation = "" then [Warning.emptyJuniorExpectation i.area] else [])
        ++ (if pyStrip i.mid_expectation = "" then [Warning.emptyMidExpectation i.area] else [])
        ++ (if pyStrip i.senior_expectation = "" then [Warning.emptySeniorExpectation i.area]
            else []))).flatten
  { passed := issues.length == 0, issues := issues, warnings := warnings }

/-- Method `QualityGate.check_seniority_match` of `quality_gates.py`. -/
def check_seniority_match (scope : AssignmentScope) (seniority_level : String) : Bool :=
  let requirement_count := scope.must_have.length
  let total_time := requirementMinutes scope.all_requirements
  if seniority_level = "junior" then
    decide (3 ≤ requirement_count ∧ requirement_count ≤ 4 ∧ 120 ≤ total_time ∧ total_time ≤ 240)
  else if seniority_level = "mid" then
    decide (4 ≤ requirement_count ∧ requirement_count ≤ 5 ∧ 180 ≤ total_time ∧ total_time ≤ 300)
  else if seniority_level = "senior" then
    decide (5 ≤ requirement_count ∧ requirement_count ≤ 6 ∧ 240 ≤ total_time ∧ total_time ≤ 420)
  else if seniority_level = "staff" then
    decide (6 ≤ requirement_count ∧ requirement_count ≤ 7 ∧ 360 ≤ total_time ∧ total_time ≤ 540)
  else
    true

/-- Method `QualityGate.generate_scope_warnings` of `quality_gates.py`
(its `time_budget_hours` argument is unused in the source body as well). -/
def generate_scope_warnings (scope : AssignmentScope) (seniority_level : String)
    (_time_budget_hours : ℚ) : List Warning :=
  (if ¬ check_seniority_match scope seniority_level then [Warning.seniorityMismatch] else [])
  ++ (if 6 < scope.must_have.length then [Warning.manyMustHaveTimeBudget] else [])
  ++ (if scope.nice_to_have.length = 0 then [Warning.noNiceToHave] else [])
  ++ (let must_have_time : ℤ := requirementMinutes scope.must_have
      let total_time : ℤ := requirementMinutes scope.all_requirements
      if 0 < total_time ∧ (must_have_time : ℚ) / (total_time : ℚ) < (1 : ℚ)/2 then
        [Warning.lowMustHaveShare]
      else [])

end QualityGate

/-- Requirements model of `schemas.py` (the candidate-brief grouping of the
requirement lists).  Its pydantic bounds `3 ≤ len(must_have) ≤ 7` are
re-checked by pydantic when the brief is assembled; scope validation having
passed guarantees the lower bound, and the embedding elides the re-check
(no claim depends on it). -/
structure Requirements where
  must_have : List Requirement
  nice_to_have : List Requirement
  constraints : List String
deriving DecidableEq, Repr

/-- CandidateBrief model of `schemas.py`. -/
structure CandidateBrief where
  title : String
  business_context : String
  requirements : Requirements
  submission_guidelines : String
  evaluation_criteria : List String
  time_estimate : String
deriving DecidableEq, Repr

/-- GeneratedAssignment model of `schemas.py`; `generated_at` is a Unix
timestamp standing for the `datetime` of the source. -/
structure GeneratedAssignment where
  candidate_brief : CandidateBrief
  evaluator_guide : EvaluatorGuide
  time_breakdown : TimeBreakdown
  assignment_id : String
  generated_at : Nat
  estimated_difficulty : String
  scope_warnings : List Warning
deriving DecidableEq, Repr

/-- Exception hierarchy of `generator.py` as a tagged error kind:
`generation` is the base `GenerationError` raised as-is (scope definition
and time breakdown), `scopeValidation` is `ScopeValidationError` carrying
the blocking issues its message lists, `contextExtraction` is
`ContextExtractionError` and `rubricGeneration` is `RubricGenerationError`
(their message strings are abstracted away). -/
inductive GenError where
  | generation
  | scopeValidation (issues : List Issue)
  | contextExtraction
  | rubricGeneration
deriving DecidableEq, Repr

/-- Structured payloads returned by the content-generation capability for
the four `generate_json` calls of one pipeline run, already parsed into
domain records; `none` models a capability failure or a response whose
shape does not parse into the phase's record at all.  Field-level pydantic
constraints are checked by the phase functions themselves. -/
structure PipelineResponses where
  context_response : Option JobContext
  scope_response : Option AssignmentScope
  rubric_response : Option EvaluatorGuide
  time_response : Option TimeBreakdown
deriving DecidableEq, Repr

namespace AssignmentGenerator

/-- Phase 1, `AssignmentGenerator._extract_context`: parse the response into
a `JobContext` and run the context quality gate; every failure (capability,
parse, or gate) is raised as `ContextExtractionError`. -/
def _extract_context (response : Option JobContext) : Except GenError JobContext :=
  match response with
  | none => .error .contextExtraction
  | some context =>
    if (QualityGate.validate_context_extraction context).passed then
      .ok context
    else
      .error .contextExtraction

/-- Phase 2, `AssignmentGenerator._define_scope`: parse the response into an
`AssignmentScope` (each `Requirement(**req)` enforcing the pydantic bound
`estimated_time_minutes > 0`); every failure is raised as the generic
`GenerationError`. -/
def _define_scope (response : Option AssignmentScope) : Except GenError AssignmentScope :=
  match response with
  | none => .error .generation
  | some scope =>
    if scope.all_requirements.all (fun r => decide (0 < r.estimated_time_minutes)) then
      .ok scope
    else
      .error .generation

/-- Phase 3, `AssignmentGenerator._validate_scope`: run the scope quality
gate, then append the heuristic warnings of `generate_scope_warnings` to the
gate's warnings. -/
def _validate_scope (scope : AssignmentScope) (input_data : AssignmentInput) : ScopeValidation :=
  let validation_result := QualityGate.validate_scope scope input_data.time_budget_hours
  let warnings := QualityGate.generate_scope_warnings scope input_data.seniority_level
    input_data.time_budget_hours
  { passed := validation_result.passed
    issues := validation_result.issues
    warnings := validation_result.warnings ++ warnings }

/-- Phase 4a, `AssignmentGenerator._generate_rubric`: parse the response
into an `EvaluatorGuide` (pydantic: each weight in `[0, 1]`, 3–7 rubric
items, weights summing to `1.0 ± 0.01`), then run the rubric quality gate;
every failure is raised as `RubricGenerationError`. -/
def _generate_rubric (response : Option EvaluatorGuide) : Except GenError EvaluatorGuide :=
  match response with
  | none => .error .rubricGeneration
  | some guide =>
    if (guide.scoring_rubric.all (fun i => decide (0 ≤ i.weight ∧ i.weight ≤ 1))) ∧
        3 ≤ guide.scoring_rubric.length ∧ guide.scoring_rubric.length ≤ 7 ∧
        |weightSum guide.scoring_rubric - 1| ≤ (1 : ℚ)/100 then
      if (QualityGate.validate_rubric guide.scoring_rubric).passed then
        .ok guide
      else
        .error .rubricGeneration
    else
      .error .rubricGeneration

/-- Phase 4b, `AssignmentGenerator._generate_time_breakdown`: parse the
response through `TimeBreakdown(**response)` (pydantic field bounds plus the
`validate_breakdown_sum` field validator); every failure is raised as the
generic `GenerationError`. -/
def _generate_time_breakdown (response : Option TimeBreakdown) : Except GenError TimeBreakdown :=
  match response with
  | none => .error .generation
  | some raw =>
    match timeBreakdownModelValidate raw with
    | none => .error .generation
    | some time_breakdown => .ok time_breakdown

/-- Method `AssignmentGenerator._build_submission_guidelines`. -/
def _build_submission_guidelines (input_data : AssignmentInput) : String :=
  let base_guidelines :=
    if input_data.submission_format = "zip" then
      "Please submit your solution as a ZIP file. Include a comprehensive README with setup instructions, architecture decisions, and any assumptions made."
    else if input_data.submission_format = "codesandbox" then
      "Please submit your solution as a CodeSandbox link. Ensure all dependencies are properly configured and the sandbox is publicly accessible."
    else
      "Please submit your solution as a GitHub repository. Include a comprehensive README with setup instructions, architecture decisions, and any assumptions made."
  match input_data.candidate_can_use with
  | some (lib :: libs) =>
    base_guidelines ++ "\n\n" ++ "You may use the following libraries/frameworks: "
      ++ String.intercalate ", " (lib :: libs)
  | _ => base_guidelines

/-- Method `AssignmentGenerator._estimate_difficulty`: thresholding on the
total requirement minutes and the must-have count (its `input_data` argument
is unused in the source body as well). -/
def _estimate_difficulty (scope : AssignmentScope) (_input_data : AssignmentInput) : String :=
  let total_time := requirementMinutes scope.all_requirements
  let requirement_count := scope.must_have.length
  if total_time ≤ 180 ∧ requirement_count ≤ 4 then
    "easy"
  else if 360 ≤ total_time ∨ 6 ≤ requirement_count then
    "hard"
  else
    "medium"

/-- Rendering of `f-string` formatting `f"{hours:.1f}"` for a rational
number of hours (the float rounding mode of Python is abstracted to
`round`). -/
def formatOneDecimal (q : ℚ) : String :=
  let tenths : ℤ := round (q * 10)
  toString (tenths / 10) ++ "." ++ toString (tenths % 10).natAbs

/-- Method `AssignmentGenerator._assemble_assignment`; `assignment_id`
models `uuid.uuid4()` and `generated_at` models `datetime.now()`, both
produced at assembly time. -/
def _assemble_assignment (_context : JobContext) (scope : AssignmentScope)
    (rubric : EvaluatorGuide) (time_breakdown : TimeBreakdown)
    (validation : ScopeValidation) (input_data : AssignmentInput)
    (assignment_id : String) (generated_at : Nat) : GeneratedAssignment :=
  let requirements : Requirements :=
    { must_have := scope.must_have
      nice_to_have := scope.nice_to_have
      constraints := scope.constraints }
  let evaluation_criteria := rubric.scoring_rubric.map (fun i => i.area)
  let hours := input_data.time_budget_hours
  let time_estimate :=
    if hours.den = 1 then toString hours.num ++ " hours"
    else formatOneDecimal hours ++ " hours"
  let submission_guidelines := _build_submission_guidelines input_data
  let candidate_brief : CandidateBrief :=
    { title := scope.title
      business_context := scope.business_context
      requirements := requirements
      submission_guidelines := submission_guidelines
      evaluation_criteria := evaluation_criteria
      time_estimate := time_estimate }
  let difficulty := _estimate_difficulty scope input_data
  { candidate_brief := candidate_brief
    evaluator_guide := rubric
    time_breakdown := time_breakdown
    assignment_id := assignment_id
    generated_at := generated_at
    estimated_difficulty := difficulty
    scope_warnings := validation.warnings }

/-- Method `AssignmentGenerator.generate`: the 4-phase pipeline.  Phase 3 is
pure; when it reports any blocking issue the run aborts with
`ScopeValidationError` before the phase-4 capability calls are made.  The
`await`/`raise` control flow of the source is written as explicit matches
on each phase's result. -/
def generate (input_data : AssignmentInput) (responses : PipelineResponses)
    (assignment_id : String) (generated_at : Nat) : Except GenError GeneratedAssignment :=
  match _extract_context responses.context_response with
  | .error e => .error e
  | .ok context =>
    match _define_scope responses.scope_response with
    | .error e => .error e
    | .ok scope =>
      let validation := _validate_scope scope input_data
      if ¬ validation.passed then
        .error (.scopeValidation validation.issues)
      else
        match _generate_rubric responses.rubric_response with
        | .error e => .error e
        | .ok rubric =>
          match _generate_time_breakdown responses.time_response with
          | .error e => .error e
          | .ok time_breakdown =>
            .ok (_assemble_assignment context scope rubric time_breakdown validation
              input_data assignment_id generated_at)

end AssignmentGenerator

/-! ### Concrete sample data used by the closed theorems -/

/-- Requirement with the given minute estimate (texts are immaterial to every
validator except for the areas echoed in messages). -/
def req (m : ℤ) : Requirement :=
  { description := "r", estimated_time_minutes := m, why_it_matters := "w" }

/-- Business-context paragraph of 100+ characters used by passing sample
scopes. -/
def sampleBusinessContext : String :=
  "The team operates a shipment tracking platform for regional carriers, exposing REST endpoints that aggregate fleet telemetry for dispatchers."

/-- Sample input: senior role, 4-hour budget, GitHub submission. -/
def sampleInput : AssignmentInput :=
  { job_title := "Backend Engineer"
    job_description := "Design and run the ingestion services behind our dispatch tooling."
    tech_stack := ["Python"]
    time_budget_hours := 4
    seniority_level := "senior"
    company_context := none
    current_challenges := none
    must_evaluate := []
    avoid_topics := []
    candidate_can_use := none
    submission_format := "github" }

/-- Sample extracted context that passes the context gate. -/
def sampleContext : JobContext :=
  { responsibilities := ["build ingestion", "operate services", "review designs"]
    business_domain := "logistics"
    daily_technologies := ["Python"]
    collaboration_patterns := none }

/-- Scope of the spec scenario: must-have minutes [80, 60, 70], nice-to-have
[30], so 240 total minutes against a 4-hour budget (ratio 1.0). -/
def sampleScope : AssignmentScope :=
  { title := "Shipment tracker"
    business_context := sampleBusinessContext
    must_have := [req 80, req 60, req 70]
    nice_to_have := [req 30]
    constraints := ["no external queue", "SQLite only"] }

/-- Scope with 180 total minutes: ratio exactly 0.75 against a 4-hour
budget. -/
def ratioLowScope : AssignmentScope :=
  { sampleScope with must_have := [req 60, req 60, req 60], nice_to_have := [] }

/-- Scope with 300 total minutes: ratio exactly 1.25 against a 4-hour
budget. -/
def ratioHighScope : AssignmentScope :=
  { sampleScope with must_have := [req 100, req 100, req 100], nice_to_have := [] }

/-- Scope with 7499 total minutes: ratio exactly 0.7499 against a
500/3-hour (10000-minute) budget. -/
def ratioJustUnderScope : AssignmentScope :=
  { sampleScope with must_have := [req 2500, req 2500, req 2499], nice_to_have := [] }

/-- Scope with 12501 total minutes: ratio exactly 1.2501 against a
500/3-hour (10000-minute) budget. -/
def ratioJustOverScope : AssignmentScope :=
  { sampleScope with must_have := [req 4167, req 4167, req 4167], nice_to_have := [] }

/-- Scope that fails validation: no must-have requirements and a
business context far below 100 characters. -/
def failingScope : AssignmentScope :=
  { title := "t", business_context := "too short", must_have := [],
    nice_to_have := [], constraints := [] }

/-- Difficulty scenario scope: total 150 minutes, 3 must-haves. -/
def easyScope : AssignmentScope :=
  { sampleScope with must_have := [req 50, req 50, req 50], nice_to_have := [] }

/-- Difficulty scenario scope: total 400 minutes, 5 must-haves. -/
def hardScope : AssignmentScope :=
  { sampleScope with must_have := [req 80, req 80, req 80, req 80, req 80], nice_to_have := [] }

/-- Difficulty and seniority scenario scope: total 300 minutes, 5
must-haves. -/
def mediumScope : AssignmentScope :=
  { sampleScope with must_have := [req 60, req 60, req 60, req 60, req 60], nice_to_have := [] }

/-- Seniority scenario scope: 2 must-haves, total 300 minutes. -/
def twoReqScope : AssignmentScope :=
  { sampleScope with must_have := [req 150, req 150], nice_to_have := [] }

/-- Seniority scenario scope: 5 must-haves, total 100 minutes. -/
def shortTimeScope : AssignmentScope :=
  { sampleScope with must_have := [req 20, req 20, req 20, req 20, req 20], nice_to_have := [] }

/-- Rubric of three equally weighted items with non-blank texts. -/
def sampleRubric : List RubricItem :=
  [{ area := "API design", weight := 1/3, junior_expectation := "j", mid_expectation := "m",
     senior_expectation := "s", scoring_guide := "g" },
   { area := "Testing", weight := 1/3, junior_expectation := "j", mid_expectation := "m",
     senior_expectation := "s", scoring_guide := "g" },
   { area := "Data modelling", weight := 1/3, junior_expectation := "j", mid_expectation := "m",
     senior_expectation := "s", scoring_guide := "g" }]

/-- Time-breakdown payload whose parts sum to 50 against a stated total of
100 while the capability self-reports the breakdown as valid. -/
def overdrawnBreakdown : TimeBreakdown :=
  { total_minutes := 100, setup_minutes := 0, core_implementation_minutes := 50,
    testing_minutes := 0, documentation_minutes := 0, buffer_minutes := 0,
    breakdown_valid := true }

/-- Time-breakdown payload whose parts sum to 98 against a stated total of
100, self-reported as invalid. -/
def closeBreakdown : TimeBreakdown :=
  { total_minutes := 100, setup_minutes := 5, core_implementation_minutes := 80,
    testing_minutes := 5, documentation_minutes := 5, buffer_minutes := 3,
    breakdown_valid := false }

/-- Validated form of `closeBreakdown`: the recomputed flag is true. -/
def closeValidated : TimeBreakdown :=
  { closeBreakdown with breakdown_valid := true }

/-- Time-breakdown payload whose parts sum to 95 against a stated total of
100: a discrepancy of exactly 5 minutes. -/
def exactFiveBreakdown : TimeBreakdown :=
  { total_minutes := 100, setup_minutes := 5, core_implementation_minutes := 80,
    testing_minutes := 5, documentation_minutes := 5, buffer_minutes := 0,
    breakdown_valid := true }

/-- Validated form of `exactFiveBreakdown`: the recomputed flag is false
because the strict comparison rejects a discrepancy of exactly 5. -/
def exactFiveValidated : TimeBreakdown :=
  { exactFiveBreakdown with breakdown_valid := false }

/-- Scope whose single requirement has a non-positive minute estimate, so
scope parsing fails on the pydantic bound. -/
def nonPositiveScope : AssignmentScope :=
  { sampleScope with must_have := [req 0] }

/-- Job context with an empty business domain, failing the context gate. -/
def emptyDomainContext : JobContext :=
  { sampleContext with business_domain := "  " }

/-- Evaluator guide wrapping `sampleRubric`. -/
def sampleGuide : EvaluatorGuide :=
  { scoring_rubric := sampleRubric
    common_pitfalls := []
    red_flags := []
    green_flags := []
    calibration_notes := "c" }

/-- Capability responses for a run whose scope fails validation; the
phase-4 responses are deliberately populated. -/
def failingResponses : PipelineResponses :=
  { context_response := some sampleContext
    scope_response := some failingScope
    rubric_response := some sampleGuide
    time_response := some closeBreakdown }

/-- Same run with both phase-4 responses failed, to witness that phase 4 is
never consulted once validation has failed. -/
def failingResponsesNoPhase4 : PipelineResponses :=
  { failingResponses with rubric_response := none, time_response := none }

/-! ### Helper lemmas -/

theorem iteSingleton_eq_nil {α : Type} (c : Prop) [Decidable c] (a : α) :
    (if c then [a] else []) = [] ↔ ¬ c := by
  split <;> simp_all

theorem mem_iteSingleton {α : Type} (c : Prop) [Decidable c] (a b : α) :
    a ∈ (if c then [b] else []) ↔ c ∧ a = b := by
  split <;> simp_all

theorem validate_context_extraction_passed_iff (context : JobContext) :
    (QualityGate.validate_context_extraction context).passed = true ↔
      (QualityGate.validate_context_extraction context).issues = [] := by
  simp [QualityGate.validate_context_extraction, List.length_eq_zero]

theorem validate_scope_passed_iff (scope : AssignmentScope) (time_budget_hours : ℚ) :
    (QualityGate.validate_scope scope time_budget_hours).passed = true ↔
      (QualityGate.validate_scope scope time_budget_hours).issues = [] := by
  simp [QualityGate.validate_scope, List.length_eq_zero]

theorem validate_rubric_passed_iff (rubric : List RubricItem) :
    (QualityGate.validate_rubric rubric).passed = true ↔
      (QualityGate.validate_rubric rubric).issues = [] := by
  simp [QualityGate.validate_rubric, List.length_eq_zero]

/-! ### Claim theorems -/

/-- C5: each of the three quality-gate validators returns a result whose
`passed` flag is true exactly when its blocking-issue list is empty
(warnings never affect `passed`). -/
theorem quality_gate_passed_iff_no_issues :
    (∀ context : JobContext,
      ((QualityGate.validate_context_extraction context).passed = true ↔
        (QualityGate.validate_context_extraction context).issues = [])) ∧
    (∀ (scope : AssignmentScope) (time_budget_hours : ℚ),
      ((QualityGate.validate_scope scope time_budget_hours).passed = true ↔
        (QualityGate.validate_scope scope time_budget_hours).issues = [])) ∧
    (∀ rubric : List RubricItem,
      ((QualityGate.validate_rubric rubric).passed = true ↔
        (QualityGate.validate_rubric rubric).issues = [])) :=
  ⟨validate_context_extraction_passed_iff, validate_scope_passed_iff,
    validate_rubric_passed_iff⟩

/-- C2: a scope whose requirement-minutes ratio lies in [0.75, 1.25], whose
business context has between 100 and 2000 characters and whose must-have
count is between 3 and 7 passes `validate_scope` with an empty blocking
issue list (warnings may remain). -/
theorem validate_scope_passes_in_tolerance (scope : AssignmentScope) (time_budget_hours : ℚ)
    (hratio : (3 : ℚ)/4 ≤
        (requirementMinutes scope.all_requirements : ℚ) / (time_budget_hours * 60) ∧
      (requirementMinutes scope.all_requirements : ℚ) / (time_budget_hours * 60) ≤ (5 : ℚ)/4)
    (hlen : 100 ≤ scope.business_context.length ∧ scope.business_context.length ≤ 2000)
    (hcount : 3 ≤ scope.must_have.length ∧ scope.must_have.length ≤ 7) :
    (QualityGate.validate_scope scope time_budget_hours).passed = true ∧
    (QualityGate.validate_scope scope time_budget_hours).issues = [] := by
  have hissues : (QualityGate.validate_scope scope time_budget_hours).issues = [] := by
    simp [QualityGate.validate_scope, hratio.1, hratio.2, Nat.not_lt.mpr hlen.1,
      Nat.not_lt.mpr hcount.1]
  exact ⟨(validate_scope_passed_iff scope time_budget_hours).mpr hissues, hissues⟩

theorem sampleScope_ratio_fact :
    (3 : ℚ)/4 ≤ (requirementMinutes sampleScope.all_requirements : ℚ) / ((4 : ℚ) * 60) ∧
      (requirementMinutes sampleScope.all_requirements : ℚ) / ((4 : ℚ) * 60) ≤ (5 : ℚ)/4 := by
  norm_num [sampleScope, requirementMinutes, AssignmentScope.all_requirements, req]

set_option maxRecDepth 8000 in
/-- Witness for C2 at the spec scenario: must-have minutes [80, 60, 70],
nice-to-have [30], 4-hour budget, ratio exactly 1.0. -/
theorem validate_scope_passes_in_tolerance_witness :
    (QualityGate.validate_scope sampleScope 4).passed = true ∧
    (QualityGate.validate_scope sampleScope 4).issues = [] :=
  validate_scope_passes_in_tolerance sampleScope 4 sampleScope_ratio_fact
    (by decide) (by decide)

/-- C4: the time-ratio bounds of `validate_scope` are inclusive: a ratio of
exactly 0.75 or 1.25 yields no time-mismatch blocking issue, while ratios
0.7499 and 1.2501 each yield one. -/
theorem validate_scope_ratio_boundary (scope : AssignmentScope) (time_budget_hours : ℚ) :
    (((requirementMinutes scope.all_requirements : ℚ) / (time_budget_hours * 60) = (3 : ℚ)/4 ∨
      (requirementMinutes scope.all_requirements : ℚ) / (time_budget_hours * 60) = (5 : ℚ)/4) →
      Issue.timeMismatch ∉ (QualityGate.validate_scope scope time_budget_hours).issues) ∧
    (((requirementMinutes scope.all_requirements : ℚ) / (time_budget_hours * 60) =
        (7499 : ℚ)/10000 ∨
      (requirementMinutes scope.all_requirements : ℚ) / (time_budget_hours * 60) =
        (12501 : ℚ)/10000) →
      Issue.timeMismatch ∈ (QualityGate.validate_scope scope time_budget_hours).issues) := by
  constructor
  · intro h
    rcases h with h | h <;>
      simp [QualityGate.validate_scope, h, mem_iteSingleton] <;> norm_num
  · intro h
    rcases h with h | h <;>
      simp [QualityGate.validate_scope, h, mem_iteSingleton] <;> norm_num

theorem ratioLow_fact :
    (requirementMinutes ratioLowScope.all_requirements : ℚ) / ((4 : ℚ) * 60) = (3 : ℚ)/4 := by
  norm_num [ratioLowScope, sampleScope, requirementMinutes, AssignmentScope.all_requirements, req]

theorem ratioHigh_fact :
    (requirementMinutes ratioHighScope.all_requirements : ℚ) / ((4 : ℚ) * 60) = (5 : ℚ)/4 := by
  norm_num [ratioHighScope, sampleScope, requirementMinutes, AssignmentScope.all_requirements, req]

theorem ratioJustUnder_fact :
    (requirementMinutes ratioJustUnderScope.all_requirements : ℚ) / (((500 : ℚ)/3) * 60) =
      (7499 : ℚ)/10000 := by
  norm_num [ratioJustUnderScope, sampleScope, requirementMinutes,
    AssignmentScope.all_requirements, req]

theorem ratioJustOver_fact :
    (requirementMinutes ratioJustOverScope.all_requirements : ℚ) / (((500 : ℚ)/3) * 60) =
      (12501 : ℚ)/10000 := by
  norm_num [ratioJustOverScope, sampleScope, requirementMinutes,
    AssignmentScope.all_requirements, req]

/-- Witness for C4 at ratios 0.75, 1.25, 0.7499 and 1.2501. -/
theorem validate_scope_ratio_boundary_witness :
    Issue.timeMismatch ∉ (QualityGate.validate_scope ratioLowScope 4).issues ∧
    Issue.timeMismatch ∉ (QualityGate.validate_scope ratioHighScope 4).issues ∧
    Issue.timeMismatch ∈ (QualityGate.validate_scope ratioJustUnderScope ((500 : ℚ)/3)).issues ∧
    Issue.timeMismatch ∈ (QualityGate.validate_scope ratioJustOverScope ((500 : ℚ)/3)).issues :=
  ⟨(validate_scope_ratio_boundary ratioLowScope 4).1 (Or.inl ratioLow_fact),
   (validate_scope_ratio_boundary ratioHighScope 4).1 (Or.inr ratioHigh_fact),
   (validate_scope_ratio_boundary ratioJustUnderScope ((500 : ℚ)/3)).2
     (Or.inl ratioJustUnder_fact),
   (validate_scope_ratio_boundary ratioJustOverScope ((500 : ℚ)/3)).2
     (Or.inr ratioJustOver_fact)⟩

/-- C3: `validate_rubric` passes exactly when the rubric has at least 3
items, the weight sum is within 0.01 of 1.0, every weight is strictly
positive and every scoring guide is non-empty (after stripping whitespace,
as the source checks); item counts above 7, weights below 0.05 and empty
junior/mid/senior expectation texts surface in the warning list and, by the
characterisation of `passed`, never block. -/
theorem validate_rubric_characterisation (rubric : List RubricItem) :
    ((QualityGate.validate_rubric rubric).passed = true ↔
      (3 ≤ rubric.length ∧ |weightSum rubric - 1| ≤ (1 : ℚ)/100 ∧
        (∀ i ∈ rubric, 0 < i.weight) ∧ ∀ i ∈ rubric, ¬ pyStrip i.scoring_guide = "")) ∧
    (7 < rubric.length →
      Warning.manyRubricItems ∈ (QualityGate.validate_rubric rubric).warnings) ∧
    (∀ i ∈ rubric, 0 < i.weight → i.weight < (5 : ℚ)/100 →
      Warning.smallWeight i.area ∈ (QualityGate.validate_rubric rubric).warnings) ∧
    (∀ i ∈ rubric, pyStrip i.junior_expectation = "" →
      Warning.emptyJuniorExpectation i.area ∈ (QualityGate.validate_rubric rubric).warnings) ∧
    (∀ i ∈ rubric, pyStrip i.mid_expectation = "" →
      Warning.emptyMidExpectation i.area ∈ (QualityGate.validate_rubric rubric).warnings) ∧
    (∀ i ∈ rubric, pyStrip i.senior_expectation = "" →
      Warning.emptySeniorExpectation i.area ∈ (QualityGate.validate_rubric rubric).warnings) := by
  refine ⟨?_, ?_, ?_, ?_, ?_, ?_⟩
  · rw [validate_rubric_passed_iff]
    simp [QualityGate.validate_rubric, iteSingleton_eq_nil, List.append_eq_nil,
      List.filter_eq_nil_iff, List.map_eq_nil_iff, not_lt, not_le]
  · intro h
    simp [QualityGate.validate_rubric, List.mem_append, mem_iteSingleton, h]
  · intro i hi h1 h2
    simp only [QualityGate.validate_rubric, List.mem_append, List.mem_map, List.mem_filter]
    exact Or.inl (Or.inr ⟨i, ⟨hi, by simp [h1, h2]⟩, rfl⟩)
  · intro i hi h
    simp only [QualityGate.validate_rubric, List.mem_append, List.mem_flatten, List.mem_map]
    refine Or.inr ⟨_, ⟨i, hi, rfl⟩, ?_⟩
    simp [mem_iteSingleton, h]
  · intro i hi h
    simp only [QualityGate.validate_rubric, List.mem_append, List.mem_flatten, List.mem_map]
    refine Or.inr ⟨_, ⟨i, hi, rfl⟩, ?_⟩
    simp [mem_iteSingleton, h]
  · intro i hi h
    simp only [QualityGate.validate_rubric, List.mem_append, List.mem_flatten, List.mem_map]
    refine Or.inr ⟨_, ⟨i, hi, rfl⟩, ?_⟩
    simp [mem_iteSingleton, h]

/-- Witness for C3 at a three-item rubric with weights 1/3 each and
non-blank scoring guides. -/
theorem validate_rubric_characterisation_witness :
    (QualityGate.validate_rubric sampleRubric).passed = true :=
  (validate_rubric_characterisation sampleRubric).1.mpr
    ⟨by decide, by norm_num [weightSum, sampleRubric], by norm_num [sampleRubric],
      by decide⟩

/-- C6: `_estimate_difficulty` is the deterministic three-way thresholding
on (total requirement minutes, must-have count): easy when total ≤ 180 and
count ≤ 4, otherwise hard when total ≥ 360 or count ≥ 6, otherwise
medium. -/
theorem estimate_difficulty_thresholds (scope : AssignmentScope) (input_data : AssignmentInput) :
    ((requirementMinutes scope.all_requirements ≤ 180 ∧ scope.must_have.length ≤ 4) →
      AssignmentGenerator._estimate_difficulty scope input_data = "easy") ∧
    (¬ (requirementMinutes scope.all_requirements ≤ 180 ∧ scope.must_have.length ≤ 4) →
      (360 ≤ requirementMinutes scope.all_requirements ∨ 6 ≤ scope.must_have.length) →
      AssignmentGenerator._estimate_difficulty scope input_data = "hard") ∧
    (¬ (requirementMinutes scope.all_requirements ≤ 180 ∧ scope.must_have.length ≤ 4) →
      ¬ (360 ≤ requirementMinutes scope.all_requirements ∨ 6 ≤ scope.must_have.length) →
      AssignmentGenerator._estimate_difficulty scope input_data = "medium") := by
  refine ⟨fun h => ?_, fun h1 h2 => ?_, fun h1 h2 => ?_⟩
  · simp [AssignmentGenerator._estimate_difficulty, h]
  · simp [AssignmentGenerator._estimate_difficulty, h1, h2]
  · simp [AssignmentGenerator._estimate_difficulty, h1, h2]

/-- Witness for C6 at the three spec scenarios: total 150 with count 3 is
easy, total 400 with count 5 is hard, total 300 with count 5 is medium. -/
theorem estimate_difficulty_thresholds_witness :
    AssignmentGenerator._estimate_difficulty easyScope sampleInput = "easy" ∧
    AssignmentGenerator._estimate_difficulty hardScope sampleInput = "hard" ∧
    AssignmentGenerator._estimate_difficulty mediumScope sampleInput = "medium" :=
  ⟨(estimate_difficulty_thresholds easyScope sampleInput).1 (by decide),
   (estimate_difficulty_thresholds hardScope sampleInput).2.1 (by decide) (by decide),
   (estimate_difficulty_thresholds mediumScope sampleInput).2.2 (by decide) (by decide)⟩

theorem count_iteSingleton {α : Type} [DecidableEq α] (c : Prop) [Decidable c] (a b : α) :
    (if c then [b] else []).count a = if c ∧ b = a then 1 else 0 := by
  by_cases hc : c <;> by_cases hab : b = a <;>
    simp_all [List.count_singleton, List.count_nil, List.count_cons]

/-- C7: `check_seniority_match` holds exactly when the must-have count and
the total requirement minutes both fall in the level's ranges (junior
[3,4] and [120,240]; mid [4,5] and [180,300]; senior [5,6] and [240,420];
staff [6,7] and [360,540]); every other level string always matches; and a
mismatch contributes exactly one seniority warning (and a match none)
through `generate_scope_warnings`, never a blocking issue. -/
theorem check_seniority_match_characterisation :
    (∀ scope : AssignmentScope,
      (QualityGate.check_seniority_match scope "junior" = true ↔
        (3 ≤ scope.must_have.length ∧ scope.must_have.length ≤ 4 ∧
          120 ≤ requirementMinutes scope.all_requirements ∧
          requirementMinutes scope.all_requirements ≤ 240)) ∧
      (QualityGate.check_seniority_match scope "mid" = true ↔
        (4 ≤ scope.must_have.length ∧ scope.must_have.length ≤ 5 ∧
          180 ≤ requirementMinutes scope.all_requirements ∧
          requirementMinutes scope.all_requirements ≤ 300)) ∧
      (QualityGate.check_seniority_match scope "senior" = true ↔
        (5 ≤ scope.must_have.length ∧ scope.must_have.length ≤ 6 ∧
          240 ≤ requirementMinutes scope.all_requirements ∧
          requirementMinutes scope.all_requirements ≤ 420)) ∧
      (QualityGate.check_seniority_match scope "staff" = true ↔
        (6 ≤ scope.must_have.length ∧ scope.must_have.length ≤ 7 ∧
          360 ≤ requirementMinutes scope.all_requirements ∧
          requirementMinutes scope.all_requirements ≤ 540))) ∧
    (∀ (scope : AssignmentScope) (level : String),
      level ≠ "junior" → level ≠ "mid" → level ≠ "senior" → level ≠ "staff" →
      QualityGate.check_seniority_match scope level = true) ∧
    (∀ (scope : AssignmentScope) (level : String) (time_budget_hours : ℚ),
      (QualityGate.generate_scope_warnings scope level time_budget_hours).count
          Warning.seniorityMismatch =
        if QualityGate.check_seniority_match scope level then 0 else 1) := by
  refine ⟨fun scope => ⟨?_, ?_, ?_, ?_⟩,
    fun scope level h1 h2 h3 h4 => ?_, fun scope level time_budget_hours => ?_⟩
  · simp [QualityGate.check_seniority_match]
  · simp [QualityGate.check_seniority_match]
  · simp [QualityGate.check_seniority_match]
  · simp [QualityGate.check_seniority_match]
  · simp [QualityGate.check_seniority_match, h1, h2, h3, h4]
  · cases hc : QualityGate.check_seniority_match scope level <;>
      simp [QualityGate.generate_scope_warnings, List.count_append, count_iteSingleton, hc]

/-- Witness for C7 at the spec scenario: seniority "senior" matches 5
must-haves totalling 300 minutes, fails for a count of 2 or a total of 100,
matches for an unknown level, and the mismatch surfaces as exactly one
warning. -/
theorem check_seniority_match_characterisation_witness :
    QualityGate.check_seniority_match mediumScope "senior" = true ∧
    QualityGate.check_seniority_match twoReqScope "senior" = false ∧
    QualityGate.check_seniority_match shortTimeScope "senior" = false ∧
    QualityGate.check_seniority_match mediumScope "principal" = true ∧
    (QualityGate.generate_scope_warnings twoReqScope "senior" 4).count
      Warning.seniorityMismatch = 1 := by
  refine ⟨?_, ?_, ?_, ?_, ?_⟩
  · exact ((check_seniority_match_characterisation.1 mediumScope).2.2.1).mpr (by decide)
  · exact Bool.eq_false_iff.mpr (fun hb => absurd
      (((check_seniority_match_characterisation.1 twoReqScope).2.2.1).mp hb) (by decide))
  · exact Bool.eq_false_iff.mpr (fun hb => absurd
      (((check_seniority_match_characterisation.1 shortTimeScope).2.2.1).mp hb) (by decide))
  · exact check_seniority_match_characterisation.2.1 mediumScope "principal"
      (by decide) (by decide) (by decide) (by decide)
  · have h := check_seniority_match_characterisation.2.2 twoReqScope "senior" 4
    rw [h]
    have hb : QualityGate.check_seniority_match twoReqScope "senior" = false := by decide
    simp [hb]

/-- C1 counterexample: the time-breakdown phase does not accept the
capability's self-reported flag unchanged: `overdrawnBreakdown` supplies
`breakdown_valid = true` with parts summing to 50 of a stated 100-minute
total, yet the phase returns it with `breakdown_valid = false`. -/
theorem breakdown_flag_not_accepted :
    overdrawnBreakdown.breakdown_valid = true ∧
    AssignmentGenerator._generate_time_breakdown (some overdrawnBreakdown) =
      .ok { overdrawnBreakdown with breakdown_valid := false } :=
  ⟨rfl, rfl⟩

/-- C1 (amended): for every `TimeBreakdown` produced by the pipeline's
time-breakdown phase, `breakdown_valid` equals the value the
`validate_breakdown_sum` field validator recomputes from the minute fields;
the capability-supplied boolean is overridden. -/
theorem breakdown_flag_recomputed (raw tb : TimeBreakdown)
    (h : AssignmentGenerator._generate_time_breakdown (some raw) = .ok tb) :
    tb.breakdown_valid = validate_breakdown_sum tb.total_minutes tb.setup_minutes
      tb.core_implementation_minutes tb.testing_minutes tb.documentation_minutes
      tb.buffer_minutes := by
  simp only [AssignmentGenerator._generate_time_breakdown] at h
  cases hv : timeBreakdownModelValidate raw with
  | none => rw [hv] at h; exact absurd h (by simp)
  | some x =>
    rw [hv] at h
    cases h
    unfold timeBreakdownModelValidate at hv
    split at hv
    · cases hv
      rfl
    · exact absurd hv (by simp)

/-- Witness for the amended C1: `closeBreakdown` (parts summing to 98 of a
100-minute total, supplied flag false) comes out of the phase with the
recomputed flag. -/
theorem breakdown_flag_recomputed_witness :
    closeValidated.breakdown_valid = validate_breakdown_sum closeValidated.total_minutes
      closeValidated.setup_minutes closeValidated.core_implementation_minutes
      closeValidated.testing_minutes closeValidated.documentation_minutes
      closeValidated.buffer_minutes :=
  breakdown_flag_recomputed closeBreakdown closeValidated rfl

/-- C10: every `TimeBreakdown` accepted by pydantic model validation has
`breakdown_valid` equal to the strict check |total − (setup + core +
testing + documentation + buffer)| < 5 — in particular a discrepancy of
exactly 5 minutes gives `breakdown_valid = false` — independently of the
boolean supplied at construction. -/
theorem breakdown_valid_invariant (raw tb : TimeBreakdown)
    (h : timeBreakdownModelValidate raw = some tb) :
    (tb.breakdown_valid = true ↔
      |tb.total_minutes - (tb.setup_minutes + tb.core_implementation_minutes +
        tb.testing_minutes + tb.documentation_minutes + tb.buffer_minutes)| < 5) ∧
    (|tb.total_minutes - (tb.setup_minutes + tb.core_implementation_minutes +
        tb.testing_minutes + tb.documentation_minutes + tb.buffer_minutes)| = 5 →
      tb.breakdown_valid = false) ∧
    (∀ b : Bool, timeBreakdownModelValidate { raw with breakdown_valid := b } = some tb) := by
  unfold timeBreakdownModelValidate at h
  split at h
  · cases h
    refine ⟨by simp [validate_breakdown_sum], fun h5 => ?_, fun b => ?_⟩
    · simp [validate_breakdown_sum, h5]
    · simp_all [timeBreakdownModelValidate]
  · exact absurd h (by simp)

/-- Witness for C10: a payload whose parts sum to 95 against a total of
100 — a discrepancy of exactly 5 minutes — validates with
`breakdown_valid = false` despite supplying `true`. -/
theorem breakdown_valid_invariant_witness :
    exactFiveValidated.breakdown_valid = false :=
  (breakdown_valid_invariant exactFiveBreakdown exactFiveValidated rfl).2.1 (by decide)

/-- C8: when phase-3 scope validation reports any blocking issue, `generate`
returns the scope-validation error carrying those issues — no
`GeneratedAssignment` is produced — and the outcome is unchanged when the
phase-4 responses and the assembly-time identifier and timestamp are
replaced arbitrarily: the failed run never consults phase 4, is never
retried and is never auto-corrected. -/
theorem generate_aborts_on_scope_failure (input_data : AssignmentInput)
    (r1 r2 : PipelineResponses) (id1 id2 : String) (t1 t2 : Nat)
    (context : JobContext) (scope : AssignmentScope)
    (hcr : r1.context_response = r2.context_response)
    (hsr : r1.scope_response = r2.scope_response)
    (hctx : AssignmentGenerator._extract_context r1.context_response = .ok context)
    (hscope : AssignmentGenerator._define_scope r1.scope_response = .ok scope)
    (hfail : (AssignmentGenerator._validate_scope scope input_data).passed = false) :
    AssignmentGenerator.generate input_data r1 id1 t1 =
      .error (GenError.scopeValidation
        (AssignmentGenerator._validate_scope scope input_data).issues) ∧
    AssignmentGenerator.generate input_data r1 id1 t1 =
      AssignmentGenerator.generate input_data r2 id2 t2 := by
  have hmain : ∀ (r : PipelineResponses) (i : String) (t : Nat),
      r.context_response = r1.context_response → r.scope_response = r1.scope_response →
      AssignmentGenerator.generate input_data r i t =
        .error (GenError.scopeValidation
          (AssignmentGenerator._validate_scope scope input_data).issues) := by
    intro r i t hc hs
    unfold AssignmentGenerator.generate
    rw [hc, hs, hctx, hscope]
    simp [hfail]
  exact ⟨hmain r1 id1 t1 rfl rfl,
    (hmain r1 id1 t1 rfl rfl).trans (hmain r2 id2 t2 hcr.symm hsr.symm).symm⟩

theorem failingScope_fails :
    (AssignmentGenerator._validate_scope failingScope sampleInput).passed = false := by
  have hlen : ("too short" : String).length < 100 := by decide
  norm_num [AssignmentGenerator._validate_scope, QualityGate.validate_scope, failingScope,
    sampleInput, requirementMinutes, AssignmentScope.all_requirements, hlen]

/-- Witness for C8: a run whose scope has no must-have requirements and a
9-character business context aborts with the scope-validation error, and
the phase-4 responses (populated in `failingResponses`, absent in
`failingResponsesNoPhase4`) do not change the outcome. -/
theorem generate_aborts_on_scope_failure_witness :
    AssignmentGenerator.generate sampleInput failingResponses "id-1" 0 =
      .error (GenError.scopeValidation
        (AssignmentGenerator._validate_scope failingScope sampleInput).issues) ∧
    AssignmentGenerator.generate sampleInput failingResponses "id-1" 0 =
      AssignmentGenerator.generate sampleInput failingResponsesNoPhase4 "id-2" 1 :=
  generate_aborts_on_scope_failure sampleInput failingResponses failingResponsesNoPhase4
    "id-1" "id-2" 0 1 sampleContext failingScope rfl rfl rfl rfl failingScope_fails

/-- C9 counterexample: scope definition is not the only phase without a
dedicated error kind — a failed time-breakdown response is raised as the
same generic `GenerationError` as a failed scope response. -/
theorem time_breakdown_shares_generic_error :
    AssignmentGenerator._generate_time_breakdown none = .error GenError.generation ∧
    AssignmentGenerator._define_scope none = .error GenError.generation :=
  ⟨rfl, rfl⟩

/-- C9 (amended): every failure of the scope-definition phase is raised as
the generic `GenerationError`; context-extraction failures are raised as
`ContextExtractionError` and rubric failures as `RubricGenerationError`;
scope definition and time-breakdown generation are the two phases whose
failures carry no dedicated error kind. -/
theorem phase_error_kinds :
    (∀ (response : Option AssignmentScope) (e : GenError),
      AssignmentGenerator._define_scope response = .error e → e = GenError.generation) ∧
    (∀ (response : Option JobContext) (e : GenError),
      AssignmentGenerator._extract_context response = .error e →
        e = GenError.contextExtraction) ∧
    (∀ (response : Option EvaluatorGuide) (e : GenError),
      AssignmentGenerator._generate_rubric response = .error e →
        e = GenError.rubricGeneration) ∧
    (∀ (response : Option TimeBreakdown) (e : GenError),
      AssignmentGenerator._generate_time_breakdown response = .error e →
        e = GenError.generation) := by
  refine ⟨?_, ?_, ?_, ?_⟩
  · intro response e h
    cases response with
    | none => injection h with h; exact h.symm
    | some scope =>
      simp only [AssignmentGenerator._define_scope] at h
      split at h
      · exact Except.noConfusion h
      · injection h with h
        exact h.symm
  · intro response e h
    cases response with
    | none => injection h with h; exact h.symm
    | some context =>
      simp only [AssignmentGenerator._extract_context] at h
      split at h
      · exact Except.noConfusion h
      · injection h with h
        exact h.symm
  · intro response e h
    cases response with
    | none => injection h with h; exact h.symm
    | some guide =>
      simp only [AssignmentGenerator._generate_rubric] at h
      split at h
      · split at h
        · exact Except.noConfusion h
        · injection h with h
          exact h.symm
      · injection h with h
        exact h.symm
  · intro response e h
    cases response with
    | none => injection h with h; exact h.symm
    | some raw =>
      simp only [AssignmentGenerator._generate_time_breakdown] at h
      split at h
      · injection h with h
        exact h.symm
      · exact Except.noConfusion h

/-- Witness for the amended C9: a scope response with a non-positive minute
estimate and a failed time-breakdown response each come back as the generic
kind, while a blank business domain and a failed rubric response come back
as their dedicated kinds. -/
theorem phase_error_kinds_witness :
    AssignmentGenerator._define_scope (some nonPositiveScope) = .error GenError.generation ∧
    AssignmentGenerator._extract_context (some emptyDomainContext) =
      .error GenError.contextExtraction ∧
    AssignmentGenerator._generate_rubric none = .error GenError.rubricGeneration ∧
    AssignmentGenerator._generate_time_breakdown none = .error GenError.generation := by
  have h1 := phase_error_kinds.1 (some nonPositiveScope) GenError.generation rfl
  have h2 := phase_error_kinds.2.1 (some emptyDomainContext) GenError.contextExtraction rfl
  have h3 := phase_error_kinds.2.2.1 none GenError.rubricGeneration rfl
  have h4 := phase_error_kinds.2.2.2 none GenError.generation rfl
  exact ⟨rfl, rfl, rfl, rfl⟩
